import Mathlib

/-!
Verification of the solar-system simulation engine (`solar_system.py`).

The Python source is shallowly embedded: floats become real numbers,
the mutable global `TIME_SCALE` becomes an explicit parameter `ts`,
`pygame.time.get_ticks()` becomes an explicit parameter `ticks`, and
Python's randomized `hash(str(x))` (used only by alien modes 3 and 4)
becomes an explicit function parameter `pyhash : ℝ → ℤ`.
Bodies carry a `kind` tag replacing the `Sun`/`Planet`/`Asteroid`
class hierarchy (the hierarchy is only ever inspected via `isinstance`).
-/

open Real

open Classical

/-- Module-level constant `TIME_SCALE = 0.25` (initial value; this global
is mutable at runtime, so the engine functions below take the current
value `ts` as a parameter). -/
def TIME_SCALE : ℝ := 0.25

/-- Module-level constant `GRAVITY_STRENGTH = 0.5`. -/
def GRAVITY_STRENGTH : ℝ := 0.5

/-- Module-level constant `DISTANCE_DAMPING = 10.0`. -/
def DISTANCE_DAMPING : ℝ := 10.0

/-- Module-level constant `ORBIT_CORRECTION = 0.02`. -/
def ORBIT_CORRECTION : ℝ := 0.02

/-- Python's `int()` truncation toward zero, on reals. -/
noncomputable def pyInt (x : ℝ) : ℤ := if 0 ≤ x then ⌊x⌋ else -⌊-x⌋

/-- Python's float modulo `a % b` (result has the sign of `b`):
`a - b * floor(a / b)`. -/
noncomputable def pyMod (a b : ℝ) : ℝ := a - b * ⌊a / b⌋

/-- Embedding of `math.atan2(y, x)` as the argument of the complex number
`x + y i` (range `(-π, π]`, `atan2 0 0 = 0`, matching CPython). -/
noncomputable def atan2 (y x : ℝ) : ℝ := Complex.arg ⟨x, y⟩

/-- The three `isinstance` classes of bodies: `Sun`, `Planet`, `Asteroid`. -/
inductive Kind where
  | sun : Kind
  | planet : Kind
  | asteroid : Kind
deriving DecidableEq

/-- A celestial body: the physical fields of class `Body`.
`display_size` is an `int` in Python but is freely overwritten by callers
and only consumed in real arithmetic, so it is a real here. -/
structure Body where
  kind : Kind
  mass : ℝ
  position : ℝ × ℝ
  velocity : ℝ × ℝ
  display_size : ℝ

/-- Euclidean distance between two bodies (`Body.distance_to`). -/
noncomputable def Body.distance_to (a b : Body) : ℝ :=
  Real.sqrt ((b.position.1 - a.position.1) ^ 2 + (b.position.2 - a.position.2) ^ 2)

/-- Angle from one body to another (`Body.angle_to`):
`atan2(y2 - y1, x2 - x1)`. -/
noncomputable def Body.angle_to (a b : Body) : ℝ :=
  atan2 (b.position.2 - a.position.2) (b.position.1 - a.position.1)

/-- Integration step `Body.move`: `position += velocity * TIME_SCALE`
(the current time scale is passed as `ts`). -/
def Body.move (ts : ℝ) (b : Body) : Body :=
  { b with position := (b.position.1 + b.velocity.1 * ts, b.position.2 + b.velocity.2 * ts) }

/-- Instance field `max_log_messages = 5` of `SolarSystem`. -/
def max_log_messages : ℕ := 5

/-- Embedding of `SolarSystem.add_message`, restricted to its effect on
the log list: append, then `pop(0)` when the length exceeds
`max_log_messages`. (The timestamp/color formatting of the entry is
presentation data and is abstracted into the entry type `α`.) -/
def add_message {α : Type _} (log : List α) (m : α) : List α :=
  let l := log ++ [m]
  if max_log_messages < l.length then l.tail else l

/-- Embedding of `SolarSystem.check_collision`, restricted to which body
(if any) is removed: two Planets or two Asteroids are skipped outright;
otherwise on overlap (`distance < size1/2 + size2/2`) a Sun destroys the
paired Planet/Asteroid and a Planet absorbs the paired Asteroid. Returns
the removed body. -/
noncomputable def check_collision (first second : Body) : Option Body :=
  if (first.kind = Kind.planet ∧ second.kind = Kind.planet) ∨
     (first.kind = Kind.asteroid ∧ second.kind = Kind.asteroid) then
    none
  else if first.distance_to second < first.display_size / 2 + second.display_size / 2 then
    if first.kind = Kind.sun ∧ (second.kind = Kind.planet ∨ second.kind = Kind.asteroid) then
      some second
    else if second.kind = Kind.sun ∧ (first.kind = Kind.planet ∨ first.kind = Kind.asteroid) then
      some first
    else if first.kind = Kind.planet ∧ second.kind = Kind.asteroid then
      some second
    else if first.kind = Kind.asteroid ∧ second.kind = Kind.planet then
      some first
    else none
  else none

/-- The alien-mode index computed in `calculate_gravity`:
`int(time_seconds / mode_duration) % 7` with `mode_duration = 10`.
`timeSeconds` is `pygame.time.get_ticks() / 1000`. -/
noncomputable def currentAlienMode (timeSeconds : ℝ) : ℤ :=
  pyInt (timeSeconds / 10) % 7

/-- The standard Newtonian force of `calculate_gravity`:
`GRAVITY_STRENGTH * m1 * m2 / (distance * distance + DISTANCE_DAMPING)`. -/
noncomputable def forceStd (first second : Body) : ℝ :=
  GRAVITY_STRENGTH * first.mass * second.mass /
    (first.distance_to second * first.distance_to second + DISTANCE_DAMPING)

/-- The stability clamp `acc = min(acc, 0.5)` applied to `force / mass`. -/
def clampAcc (a : ℝ) : ℝ := min a 0.5

/-- The per-mode alien force magnitude (modes 4 and 5 set `force = 0` and
move bodies directly in the acceleration section). `pyhash` stands for
Python's `hash(str(x))`; `ticks` is `pygame.time.get_ticks()`. -/
noncomputable def alienForce (pyhash : ℝ → ℤ) (ticks : ℝ) (mode : ℤ)
    (first second : Body) : ℝ :=
  let distance := first.distance_to second
  if mode = 0 then
    -- Magnetic Ballet: parity of mass as charge; like repels, unlike attracts.
    let attraction_factor : ℝ := 0.15
    if pyMod first.mass 2 = pyMod second.mass 2 then
      -attraction_factor * GRAVITY_STRENGTH * first.mass * second.mass /
        (distance * distance + DISTANCE_DAMPING)
    else
      attraction_factor * GRAVITY_STRENGTH * first.mass * second.mass /
        (distance * distance + DISTANCE_DAMPING)
  else if mode = 1 then
    -- Orbital dance: reduced magnitude, direction handled by rotating the angle.
    0.15 * GRAVITY_STRENGTH * first.mass * second.mass /
      (distance * distance + DISTANCE_DAMPING)
  else if mode = 2 then
    -- Vibration: oscillation with distance; note the non-squared denominator.
    GRAVITY_STRENGTH * first.mass * second.mass * (0.2 * Real.sin (distance * 0.02)) /
      (distance + DISTANCE_DAMPING)
  else if mode = 3 then
    -- Quantum tunneling: sign from a position hash.
    let position_hash := (pyhash (first.position.1 * 10) + pyhash (second.position.2 * 10)) % 100
    (if 50 < position_hash then (0.15 : ℝ) else -0.15) * GRAVITY_STRENGTH *
      first.mass * second.mass / (distance * distance + DISTANCE_DAMPING)
  else if mode = 4 then 0
  else if mode = 5 then 0
  else
    -- Rhythmic pulsation.
    let position_sum := first.position.1 + first.position.2 + second.position.1 + second.position.2
    let time_factor := ticks / 1000
    let rhythm_period := 2 + pyMod position_sum 3
    let rhythm_phase := pyMod time_factor rhythm_period / rhythm_period
    0.2 * Real.sin (rhythm_phase * 2 * Real.pi) * GRAVITY_STRENGTH *
      first.mass * second.mass / (distance * distance + DISTANCE_DAMPING)

/-- Mode 4 (Choreographed orbits): the direct velocity nudge for one body;
`shift` is 0 for the first body of the pair and π for the second. -/
noncomputable def choreoAcc (pyhash : ℝ → ℤ) (ticks ts mass shift : ℝ) : ℝ × ℝ :=
  let time_factor := ticks / 2000
  let pattern_factor := ((pyhash mass % 5 : ℤ) : ℝ) / 5
  let circle_radius := 0.1 * pattern_factor
  let circle_x := circle_radius * Real.cos (time_factor + pattern_factor * 2 * Real.pi + shift)
  let circle_y := circle_radius * Real.sin (time_factor + pattern_factor * 2 * Real.pi + shift)
  let figure8_scale := 0.1 * (1 - pattern_factor)
  let figure8_x := figure8_scale * Real.sin (time_factor * 2 + shift)
  let figure8_y := figure8_scale * Real.sin (time_factor + shift) * Real.cos (time_factor + shift)
  ((circle_x + figure8_x) * ts, (circle_y + figure8_y) * ts)

/-- Mode 5 (Spiral dance): the direct velocity nudge for a body at
position `p`: a tangential component plus a radial component toward or
away from the origin depending on a comfortable radius of 200. -/
noncomputable def spiralAcc (ts : ℝ) (p : ℝ × ℝ) : ℝ × ℝ :=
  let current_dist := Real.sqrt (p.1 ^ 2 + p.2 ^ 2)
  let center_angle := atan2 p.2 p.1
  let ideal_dist : ℝ := 200
  let spiral_strength : ℝ := 0.08
  let tangential_angle := center_angle + Real.pi / 2
  let radial_direction : ℝ := if current_dist < ideal_dist then 1 else -1
  let radial_strength := min 0.05 (|current_dist - ideal_dist| / 1000)
  ((spiral_strength * Real.cos tangential_angle +
      radial_direction * radial_strength * Real.cos center_angle) * ts,
   (spiral_strength * Real.sin tangential_angle +
      radial_direction * radial_strength * Real.sin center_angle) * ts)

/-- The velocity increment `(acc1_x, acc1_y)` applied to the first body of
a pair by `calculate_gravity` (assuming `distance ≥ 1`, i.e. past the
short-circuit). -/
noncomputable def accVec1 (pyhash : ℝ → ℤ) (ticks ts : ℝ) (alien : Bool)
    (first second : Body) : ℝ × ℝ :=
  let angle := first.angle_to second
  if alien then
    let m := currentAlienMode (ticks / 1000)
    let force := alienForce pyhash ticks m first second
    let angle := if m = 1 then angle + Real.pi / 2 else angle
    let acc1 := clampAcc (force / first.mass) * ts
    if m = 4 then choreoAcc pyhash ticks ts first.mass 0
    else if m = 5 then spiralAcc ts first.position
    else (acc1 * Real.cos angle, acc1 * Real.sin angle)
  else
    let force := forceStd first second
    let acc1 := clampAcc (force / first.mass) * ts
    (acc1 * Real.cos angle, acc1 * Real.sin angle)

/-- The velocity increment `(acc2_x, acc2_y)` applied to the second body
of a pair by `calculate_gravity`: same force over its own mass, along
`angle + π` (modes 4 and 5 use their per-body nudges with a π phase
shift / the second body's position instead). -/
noncomputable def accVec2 (pyhash : ℝ → ℤ) (ticks ts : ℝ) (alien : Bool)
    (first second : Body) : ℝ × ℝ :=
  let angle := first.angle_to second
  if alien then
    let m := currentAlienMode (ticks / 1000)
    let force := alienForce pyhash ticks m first second
    let angle := if m = 1 then angle + Real.pi / 2 else angle
    let acc2 := clampAcc (force / second.mass) * ts
    if m = 4 then choreoAcc pyhash ticks ts second.mass Real.pi
    else if m = 5 then spiralAcc ts second.position
    else (acc2 * Real.cos (angle + Real.pi), acc2 * Real.sin (angle + Real.pi))
  else
    let force := forceStd first second
    let acc2 := clampAcc (force / second.mass) * ts
    (acc2 * Real.cos (angle + Real.pi), acc2 * Real.sin (angle + Real.pi))

/-- The alien-mode velocity ceiling: if `|v| > 2.0`, rescale uniformly to
magnitude 2.0. -/
noncomputable def limitVelocity (v : ℝ × ℝ) : ℝ × ℝ :=
  let magnitude := Real.sqrt (v.1 ^ 2 + v.2 ^ 2)
  if 2 < magnitude then
    let scale_factor := 2 / magnitude
    (v.1 * scale_factor, v.2 * scale_factor)
  else v

/-- The alien-mode containment nudge: a body beyond radius 500 from the
origin gets a velocity component back toward the center, proportional to
the excess and capped at 0.2. -/
noncomputable def containVelocity (ts : ℝ) (p v : ℝ × ℝ) : ℝ × ℝ :=
  let dist_from_center := Real.sqrt (p.1 ^ 2 + p.2 ^ 2)
  if 500 < dist_from_center then
    let angle_to_center := atan2 p.2 p.1
    let beyond_boundary := dist_from_center - 500
    let containment_force := min 0.2 (beyond_boundary / 100)
    (v.1 - containment_force * Real.cos angle_to_center * ts,
     v.2 - containment_force * Real.sin angle_to_center * ts)
  else v

/-- A body's velocity after one `calculate_gravity` pass: the pairwise
increment, then (alien mode only) the velocity ceiling and containment. -/
noncomputable def postVel (alien : Bool) (ts : ℝ) (p v dv : ℝ × ℝ) : ℝ × ℝ :=
  let afterAcc := (v.1 + dv.1, v.2 + dv.2)
  if alien then containVelocity ts p (limitVelocity afterAcc) else afterAcc

/-- Result of one `calculate_gravity` call: the two (possibly updated)
bodies, the updated `current_physics_mode` field, and whether a
mode-change message was appended to the log. -/
structure GravResult where
  first : Body
  second : Body
  mode : ℤ
  modeChanged : Bool

/-- Embedding of `SolarSystem.calculate_gravity`: skip pairs closer than
1; otherwise apply the per-pair velocity increments (standard gravity, or
the active alien mode selected from `ticks`), then the alien-mode
stabilizers. `mode0` is the incoming `current_physics_mode`. -/
noncomputable def calculate_gravity (pyhash : ℝ → ℤ) (ticks ts : ℝ) (alien : Bool)
    (mode0 : ℤ) (first second : Body) : GravResult :=
  if first.distance_to second < 1 then ⟨first, second, mode0, false⟩
  else
    let v1 := postVel alien ts first.position first.velocity (accVec1 pyhash ticks ts alien first second)
    let v2 := postVel alien ts second.position second.velocity (accVec2 pyhash ticks ts alien first second)
    ⟨{ first with velocity := v1 }, { second with velocity := v2 },
     if alien then currentAlienMode (ticks / 1000) else mode0,
     alien && decide (¬currentAlienMode (ticks / 1000) = mode0)⟩

/-- Per-planet orbit correction from `SolarSystem.handle_all_interactions`
(run for each Planet with a recorded initial distance, when correction is
enabled and a Sun exists): within 0.5 of the recorded distance, skip;
otherwise nudge the velocity along the angle to (or away from) the Sun,
with double strength when too close. -/
noncomputable def orbit_correct (ts : ℝ) (sun : Body) (ideal_distance : ℝ) (body : Body) :
    Body :=
  let current_distance := body.distance_to sun
  if |current_distance - ideal_distance| < 0.5 then body
  else
    let angle_to_sun := body.angle_to sun
    let corr :=
      if current_distance < ideal_distance then
        (angle_to_sun + Real.pi, |current_distance - ideal_distance| * ORBIT_CORRECTION * 2.0)
      else
        (angle_to_sun, |current_distance - ideal_distance| * ORBIT_CORRECTION)
    { body with velocity :=
        (body.velocity.1 + corr.2 * Real.cos corr.1 * ts,
         body.velocity.2 + corr.2 * Real.sin corr.1 * ts) }

/-- The engine-relevant fields of `SolarSystem`: the body list and the
per-body bookkeeping dictionaries (modelled as association lists, with
insertion at the front standing for dictionary assignment). -/
structure SolarSystem where
  bodies : List Body
  planet_names : List (Body × String)
  body_trails : List (Body × List (ℝ × ℝ))
  initial_distances : List (Body × ℝ)

/-- The search loop of `add_body`: the first `Sun` of the body list. -/
def findSun : List Body → Option Body
  | [] => none
  | b :: rest => if b.kind = Kind.sun then some b else findSun rest

/-- Embedding of `SolarSystem.add_body`: append the body; when a truthy
(non-empty) name is given, record the name, and for a Planet/Asteroid
initialize its trail and, if a Sun is present in the (just extended) body
list, record the body's current distance to it in `initial_distances`. -/
noncomputable def add_body (s : SolarSystem) (body : Body) (name : Option String) :
    SolarSystem :=
  let s1 : SolarSystem := { s with bodies := s.bodies ++ [body] }
  match name with
  | none => s1
  | some n =>
    if n = "" then s1
    else
      let s2 : SolarSystem := { s1 with planet_names := (body, n) :: s1.planet_names }
      if body.kind = Kind.planet ∨ body.kind = Kind.asteroid then
        let s3 : SolarSystem := { s2 with body_trails := (body, []) :: s2.body_trails }
        match findSun s3.bodies with
        | some sun =>
            { s3 with initial_distances := (body, body.distance_to sun) :: s3.initial_distances }
        | none => s3
      else s2

/-- A sample planet (mass 1, at the origin, at rest) used in witnesses. -/
def sampleP : Body := ⟨Kind.planet, 1, (0, 0), (0, 0), 5⟩

/-- A second sample planet (mass 2) at distance 10 along the x-axis. -/
def sampleQ : Body := ⟨Kind.planet, 2, (10, 0), (0, 0), 5⟩

/-- A small (mass 2) planet at the origin, paired with `heavyB`. -/
def heavyA : Body := ⟨Kind.planet, 2, (0, 0), (0, 0), 5⟩

/-- A Sun of mass 10000 at distance 10 from `heavyA`. -/
def heavyB : Body := ⟨Kind.sun, 10000, (10, 0), (0, 0), 50⟩

/-- Value of the cosine of `atan2`: `x / √(x² + y²)` away from the origin. -/
lemma cos_atan2 (y x : ℝ) (h : ¬(x = 0 ∧ y = 0)) :
    Real.cos (atan2 y x) = x / Real.sqrt (x ^ 2 + y ^ 2) := by
  have hz : (⟨x, y⟩ : ℂ) ≠ 0 := by
    intro hc
    rw [Complex.ext_iff] at hc
    exact h ⟨hc.1, hc.2⟩
  rw [atan2, Complex.cos_arg hz, Complex.abs_apply, Complex.normSq_mk]
  ring_nf

/-- Value of the sine of `atan2`: `y / √(x² + y²)` (also valid at the
origin). -/
lemma sin_atan2 (y x : ℝ) :
    Real.sin (atan2 y x) = y / Real.sqrt (x ^ 2 + y ^ 2) := by
  rw [atan2, Complex.sin_arg, Complex.abs_apply, Complex.normSq_mk]
  ring_nf

/-- A pair at distance at least 1 is not coincident. -/
lemma distance_ne_zero (first second : Body) (hd : 1 ≤ first.distance_to second) :
    ¬(second.position.1 - first.position.1 = 0 ∧ second.position.2 - first.position.2 = 0) := by
  rintro ⟨hx, hy⟩
  rw [Body.distance_to, hx, hy] at hd
  norm_num at hd

/-- The two sample planets are at distance 10. -/
lemma sample_dist : sampleP.distance_to sampleQ = 10 := by
  show Real.sqrt ((10 - 0) ^ 2 + (0 - 0) ^ 2) = 10
  rw [show ((10 : ℝ) - 0) ^ 2 + (0 - 0) ^ 2 = 10 ^ 2 by norm_num, Real.sqrt_sq (by norm_num)]

/-- The heavy pair is at distance 10. -/
lemma heavy_dist : heavyA.distance_to heavyB = 10 := by
  show Real.sqrt ((10 - 0) ^ 2 + (0 - 0) ^ 2) = 10
  rw [show ((10 : ℝ) - 0) ^ 2 + (0 - 0) ^ 2 = 10 ^ 2 by norm_num, Real.sqrt_sq (by norm_num)]

/-- Masses 2 and 10000 have the same parity charge in alien mode 0. -/
lemma heavy_parity : pyMod 2 2 = pyMod 10000 2 := by
  unfold pyMod
  norm_num

/-- In alien mode 0 the heavy pair repels with force `-150/11`. -/
lemma heavy_force : alienForce (fun _ => 0) 0 0 heavyA heavyB = -(150 / 11) := by
  show (if pyMod 2 2 = pyMod 10000 2 then
      -0.15 * GRAVITY_STRENGTH * 2 * 10000 /
        (heavyA.distance_to heavyB * heavyA.distance_to heavyB + DISTANCE_DAMPING)
    else
      0.15 * GRAVITY_STRENGTH * 2 * 10000 /
        (heavyA.distance_to heavyB * heavyA.distance_to heavyB + DISTANCE_DAMPING)) = -(150 / 11)
  rw [if_pos heavy_parity, heavy_dist]
  unfold GRAVITY_STRENGTH DISTANCE_DAMPING
  norm_num

/-- Appending a body at the end does not change the first Sun found. -/
lemma findSun_append (l : List Body) (b sun : Body) (h : findSun l = some sun) :
    findSun (l ++ [b]) = some sun := by
  induction l with
  | nil => simp [findSun] at h
  | cons a rest ih =>
    rw [List.cons_append]
    rw [show findSun (a :: (rest ++ [b])) =
        if a.kind = Kind.sun then some a else findSun (rest ++ [b]) from rfl]
    rw [show findSun (a :: rest) = if a.kind = Kind.sun then some a else findSun rest from rfl] at h
    by_cases ha : a.kind = Kind.sun
    · rw [if_pos ha] at h ⊢
      exact h
    · rw [if_neg ha] at h ⊢
      exact ih h

/-- C1. For every overlapping pair (`distance < (sizeA + sizeB)/2`): a Sun
paired with a Planet or Asteroid removes the non-Sun; a Planet paired with
an Asteroid removes the Asteroid; two Planets or two Asteroids are never
removed regardless of overlap; and a Sun is never the removed party. -/
theorem check_collision_rules :
    (∀ first second : Body,
      first.distance_to second < (first.display_size + second.display_size) / 2 →
      (first.kind = Kind.sun → second.kind = Kind.planet ∨ second.kind = Kind.asteroid →
        check_collision first second = some second) ∧
      (second.kind = Kind.sun → first.kind = Kind.planet ∨ first.kind = Kind.asteroid →
        check_collision first second = some first) ∧
      (first.kind = Kind.planet → second.kind = Kind.asteroid →
        check_collision first second = some second) ∧
      (first.kind = Kind.asteroid → second.kind = Kind.planet →
        check_collision first second = some first)) ∧
    (∀ first second : Body,
      (first.kind = Kind.planet ∧ second.kind = Kind.planet) ∨
      (first.kind = Kind.asteroid ∧ second.kind = Kind.asteroid) →
      check_collision first second = none) ∧
    (∀ first second r : Body, check_collision first second = some r → r.kind ≠ Kind.sun) := by
  refine ⟨?_, ?_, ?_⟩
  · intro first second hov
    have hov2 : first.distance_to second < first.display_size / 2 + second.display_size / 2 := by
      linarith
    refine ⟨?_, ?_, ?_, ?_⟩
    · intro h1 h2
      unfold check_collision
      rw [if_neg (by rcases h2 with h2 | h2 <;> simp [h1, h2]), if_pos hov2, if_pos ⟨h1, h2⟩]
    · intro h1 h2
      unfold check_collision
      rw [if_neg (by rcases h2 with h2 | h2 <;> simp [h1, h2]), if_pos hov2,
        if_neg (by rcases h2 with h2 | h2 <;> simp [h1, h2]), if_pos ⟨h1, h2⟩]
    · intro h1 h2
      unfold check_collision
      rw [if_neg (by simp [h1, h2]), if_pos hov2, if_neg (by simp [h1, h2]),
        if_neg (by simp [h1, h2]), if_pos ⟨h1, h2⟩]
    · intro h1 h2
      unfold check_collision
      rw [if_neg (by simp [h1, h2]), if_pos hov2, if_neg (by simp [h1, h2]),
        if_neg (by simp [h1, h2]), if_neg (by simp [h1]), if_pos ⟨h1, h2⟩]
  · intro first second h
    unfold check_collision
    rw [if_pos h]
  · intro first second r h
    unfold check_collision at h
    split_ifs at h with h1 h2 h3 h4 h5 h6
    · injection h with h
      subst h
      rcases h3.2 with hk | hk <;> simp [hk]
    · injection h with h
      subst h
      rcases h4.2 with hk | hk <;> simp [hk]
    · injection h with h
      subst h
      simp [h5.2]
    · injection h with h
      subst h
      simp [h6.1]

/-- Witness for C1: a Sun and a Planet placed at the same point (distance
0, sizes 50 and 5) collide and the Planet is the removed party. -/
theorem check_collision_rules_witness :
    check_collision
      { kind := Kind.sun, mass := 10000, position := (0, 0), velocity := (0, 0),
        display_size := 50 }
      { kind := Kind.planet, mass := 1, position := (0, 0), velocity := (0, 0),
        display_size := 5 } =
    some { kind := Kind.planet, mass := 1, position := (0, 0), velocity := (0, 0),
           display_size := 5 } := by
  refine ((check_collision_rules.1 _ _ ?_).1 rfl (Or.inl rfl))
  show Real.sqrt ((0 - 0) ^ 2 + (0 - 0) ^ 2) < ((50 : ℝ) + 5) / 2
  rw [show ((0 : ℝ) - 0) ^ 2 + (0 - 0) ^ 2 = 0 by norm_num, Real.sqrt_zero]
  norm_num

/-- C2. The standard (non-alien) mode computes
`force = GRAVITY_STRENGTH * m1 * m2 / (distance² + DISTANCE_DAMPING)`
(with `distance²` the exact squared Euclidean distance), and for a pair at
distance < 1 the routine returns both bodies' states unmodified (a no-op,
not an error). -/
theorem calculate_gravity_std_force (pyhash : ℝ → ℤ) (ticks ts : ℝ) (mode0 : ℤ)
    (first second : Body) :
    (first.distance_to second < 1 →
      calculate_gravity pyhash ticks ts false mode0 first second =
        ⟨first, second, mode0, false⟩) ∧
    forceStd first second =
      GRAVITY_STRENGTH * first.mass * second.mass /
        (((second.position.1 - first.position.1) ^ 2 +
          (second.position.2 - first.position.2) ^ 2) + DISTANCE_DAMPING) := by
  constructor
  · intro h
    unfold calculate_gravity
    rw [if_pos h]
  · unfold forceStd Body.distance_to
    rw [Real.mul_self_sqrt (by positivity)]

/-- Witness for C2: two coincident bodies (distance 0 < 1) are returned
untouched. -/
theorem calculate_gravity_std_force_witness :
    calculate_gravity (fun _ => 0) 0 TIME_SCALE false 0
      { kind := Kind.planet, mass := 1, position := (7, 7), velocity := (1, 2),
        display_size := 5 }
      { kind := Kind.asteroid, mass := 0.05, position := (7, 7), velocity := (3, 4),
        display_size := 2 } =
      ⟨{ kind := Kind.planet, mass := 1, position := (7, 7), velocity := (1, 2),
         display_size := 5 },
       { kind := Kind.asteroid, mass := 0.05, position := (7, 7), velocity := (3, 4),
         display_size := 2 }, 0, false⟩ := by
  refine (calculate_gravity_std_force (fun _ => 0) 0 TIME_SCALE 0 _ _).1 ?_
  show Real.sqrt ((7 - 7) ^ 2 + (7 - 7) ^ 2) < 1
  rw [show ((7 : ℝ) - 7) ^ 2 + (7 - 7) ^ 2 = 0 by norm_num, Real.sqrt_zero]
  norm_num

/-- C3. For each Planet with a recorded initial distance: within 0.5 of it
the corrector leaves the velocity unchanged; when too close it adds a
nudge of magnitude `|Δ| * ORBIT_CORRECTION * 2 * TIME_SCALE` directed away
from the Sun; when too far, a nudge of magnitude
`|Δ| * ORBIT_CORRECTION * TIME_SCALE` directed toward the Sun. -/
theorem orbit_correction_nudge (ts : ℝ) (sun body : Body) (ideal : ℝ) :
    (|body.distance_to sun - ideal| < 0.5 → orbit_correct ts sun ideal body = body) ∧
    (0.5 ≤ |body.distance_to sun - ideal| → body.distance_to sun < ideal →
      0 < body.distance_to sun →
      (orbit_correct ts sun ideal body).velocity =
        (body.velocity.1 + |body.distance_to sun - ideal| * ORBIT_CORRECTION * 2.0 * ts *
            (-((sun.position.1 - body.position.1) / body.distance_to sun)),
         body.velocity.2 + |body.distance_to sun - ideal| * ORBIT_CORRECTION * 2.0 * ts *
            (-((sun.position.2 - body.position.2) / body.distance_to sun)))) ∧
    (0.5 ≤ |body.distance_to sun - ideal| → ideal < body.distance_to sun →
      0 < body.distance_to sun →
      (orbit_correct ts sun ideal body).velocity =
        (body.velocity.1 + |body.distance_to sun - ideal| * ORBIT_CORRECTION * ts *
            ((sun.position.1 - body.position.1) / body.distance_to sun),
         body.velocity.2 + |body.distance_to sun - ideal| * ORBIT_CORRECTION * ts *
            ((sun.position.2 - body.position.2) / body.distance_to sun))) := by
  have hcos : ∀ h : ¬(sun.position.1 - body.position.1 = 0 ∧ sun.position.2 - body.position.2 = 0),
      Real.cos (body.angle_to sun) = (sun.position.1 - body.position.1) / body.distance_to sun := by
    intro h
    rw [Body.angle_to, cos_atan2 _ _ h, Body.distance_to]
  have hsin : Real.sin (body.angle_to sun) =
      (sun.position.2 - body.position.2) / body.distance_to sun := by
    rw [Body.angle_to, sin_atan2, Body.distance_to]
  have hnz : 0 < body.distance_to sun →
      ¬(sun.position.1 - body.position.1 = 0 ∧ sun.position.2 - body.position.2 = 0) := by
    rintro hpos ⟨hx, hy⟩
    rw [Body.distance_to, hx, hy] at hpos
    norm_num at hpos
  refine ⟨?_, ?_, ?_⟩
  · intro h
    unfold orbit_correct
    rw [if_pos h]
  · intro habs hlt hpos
    unfold orbit_correct
    rw [if_neg (not_lt.mpr habs)]
    dsimp only
    rw [if_pos hlt]
    rw [Real.cos_add_pi, Real.sin_add_pi, hcos (hnz hpos), hsin]
    simp only [Prod.mk.injEq]
    constructor <;> ring
  · intro habs hgt hpos
    unfold orbit_correct
    rw [if_neg (not_lt.mpr habs)]
    dsimp only
    rw [if_neg (not_lt.mpr (le_of_lt hgt))]
    rw [hcos (hnz hpos), hsin]
    simp only [Prod.mk.injEq]
    constructor <;> ring

/-- Witness for C3: a body at distance 10 from the Sun with recorded
distance 5 (too far) gets the single-strength inward nudge. -/
theorem orbit_correction_nudge_witness :
    (orbit_correct TIME_SCALE heavyB 5 heavyA).velocity =
      (0 + |heavyA.distance_to heavyB - 5| * ORBIT_CORRECTION * TIME_SCALE *
          ((10 - 0) / heavyA.distance_to heavyB),
       0 + |heavyA.distance_to heavyB - 5| * ORBIT_CORRECTION * TIME_SCALE *
          ((0 - 0) / heavyA.distance_to heavyB)) := by
  refine (orbit_correction_nudge TIME_SCALE heavyB heavyA 5).2.2 ?_ ?_ ?_ <;>
    rw [heavy_dist] <;> norm_num

/-- Counterexample to C4: in alien mode 0 (Magnetic Ballet) a repulsive
(negative) force on a light body paired with the Sun yields a clamped
acceleration `min(force/mass, 0.5) = -75/11`, whose magnitude exceeds 0.5:
the `min` clamp bounds the acceleration only from above. -/
theorem clamp_not_magnitude_bound :
    0.5 < |clampAcc (alienForce (fun _ => 0) 0 0 heavyA heavyB / heavyA.mass)| := by
  rw [heavy_force]
  show 0.5 < |min (-(150 / 11) / 2) 0.5|
  rw [min_eq_left (by norm_num), abs_of_nonpos (by norm_num)]
  norm_num

/-- C4 (amended). The per-body acceleration `force / mass` is clamped from
above by `min(·, 0.5)`, so after the clamp it never exceeds 0.5 in any
mode; in standard mode, where the force is nonnegative for positive
masses, its magnitude therefore never exceeds 0.5 (before time scaling).
The clamp does not bound the magnitude of the negative accelerations that
alien modes can produce. -/
theorem clamp_bounds_acceleration :
    (∀ a : ℝ, clampAcc a ≤ 0.5) ∧
    (∀ first second : Body, 0 < first.mass → 0 < second.mass →
      |clampAcc (forceStd first second / first.mass)| ≤ 0.5) := by
  constructor
  · intro a
    exact min_le_right a 0.5
  · intro first second h1 h2
    have hF : 0 ≤ forceStd first second / first.mass := by
      unfold forceStd GRAVITY_STRENGTH DISTANCE_DAMPING Body.distance_to
      positivity
    unfold clampAcc
    rw [abs_of_nonneg (le_min hF (by norm_num : (0 : ℝ) ≤ 0.5))]
    exact min_le_right _ _

/-- Witness for the amended C4: the clamp at 7 stays at 0.5, and the
standard-mode magnitude bound holds for the sample pair of masses 1, 2. -/
theorem clamp_bounds_acceleration_witness :
    clampAcc 7 ≤ 0.5 ∧ |clampAcc (forceStd sampleP sampleQ / sampleP.mass)| ≤ 0.5 :=
  ⟨clamp_bounds_acceleration.1 7,
   clamp_bounds_acceleration.2 sampleP sampleQ (by norm_num [sampleP]) (by norm_num [sampleQ])⟩

/-- C5. For a pair at distance ≥ 1 in standard mode, the velocity
increments of the two bodies lie along the same unit vector `u` (from the
first body toward the second) in exactly opposite directions, with the
same force `forceStd` divided by each body's own mass (then clamped and
time-scaled): `Δv1 = (clampAcc(F/m1)·ts)·u` and
`Δv2 = -(clampAcc(F/m2)·ts)·u`. -/
theorem calculate_gravity_symmetric (pyhash : ℝ → ℤ) (ticks ts : ℝ) (mode0 : ℤ)
    (first second : Body) (hd : 1 ≤ first.distance_to second) :
    (calculate_gravity pyhash ticks ts false mode0 first second).first.velocity =
      (first.velocity.1 + clampAcc (forceStd first second / first.mass) * ts *
          ((second.position.1 - first.position.1) / first.distance_to second),
       first.velocity.2 + clampAcc (forceStd first second / first.mass) * ts *
          ((second.position.2 - first.position.2) / first.distance_to second)) ∧
    (calculate_gravity pyhash ticks ts false mode0 first second).second.velocity =
      (second.velocity.1 - clampAcc (forceStd first second / second.mass) * ts *
          ((second.position.1 - first.position.1) / first.distance_to second),
       second.velocity.2 - clampAcc (forceStd first second / second.mass) * ts *
          ((second.position.2 - first.position.2) / first.distance_to second)) := by
  have hnz := distance_ne_zero first second hd
  have hlt : ¬first.distance_to second < 1 := not_lt.mpr hd
  have hcos : Real.cos (first.angle_to second) =
      (second.position.1 - first.position.1) / first.distance_to second := by
    rw [Body.angle_to, cos_atan2 _ _ hnz, Body.distance_to]
  have hsin : Real.sin (first.angle_to second) =
      (second.position.2 - first.position.2) / first.distance_to second := by
    rw [Body.angle_to, sin_atan2, Body.distance_to]
  unfold calculate_gravity
  rw [if_neg hlt]
  simp only [accVec1, accVec2, postVel, Bool.false_eq_true, if_false]
  rw [Real.cos_add_pi, Real.sin_add_pi, hcos, hsin]
  constructor <;> simp only [Prod.mk.injEq] <;> constructor <;> ring

/-- Witness for C5: the sample pair at distance 10 receives the closed
form of the opposite increments. -/
theorem calculate_gravity_symmetric_witness :
    (calculate_gravity (fun _ => 0) 0 TIME_SCALE false 0 sampleP sampleQ).first.velocity =
      (0 + clampAcc (forceStd sampleP sampleQ / 1) * TIME_SCALE *
          ((10 - 0) / sampleP.distance_to sampleQ),
       0 + clampAcc (forceStd sampleP sampleQ / 1) * TIME_SCALE *
          ((0 - 0) / sampleP.distance_to sampleQ)) ∧
    (calculate_gravity (fun _ => 0) 0 TIME_SCALE false 0 sampleP sampleQ).second.velocity =
      (0 - clampAcc (forceStd sampleP sampleQ / 2) * TIME_SCALE *
          ((10 - 0) / sampleP.distance_to sampleQ),
       0 - clampAcc (forceStd sampleP sampleQ / 2) * TIME_SCALE *
          ((0 - 0) / sampleP.distance_to sampleQ)) :=
  calculate_gravity_symmetric (fun _ => 0) 0 TIME_SCALE 0 sampleP sampleQ
    (by rw [sample_dist]; norm_num)

/-- C6. With alien physics enabled the active mode index is
`floor(t / 10) mod 7` for every elapsed time `t ≥ 0` in seconds, and the
mode stored by `calculate_gravity` is exactly this function of the clock,
for every pair of bodies (past the distance short-circuit), independent of
the body configuration. -/
theorem alien_mode_pure_time :
    (∀ t : ℝ, 0 ≤ t → currentAlienMode t = ⌊t / 10⌋ % 7) ∧
    (∀ (pyhash : ℝ → ℤ) (ticks ts : ℝ) (mode0 : ℤ) (first second : Body),
      ¬first.distance_to second < 1 →
      (calculate_gravity pyhash ticks ts true mode0 first second).mode =
        currentAlienMode (ticks / 1000)) := by
  constructor
  · intro t ht
    unfold currentAlienMode pyInt
    rw [if_pos (by positivity)]
  · intro pyhash ticks ts mode0 first second h
    unfold calculate_gravity
    rw [if_neg h]
    simp

/-- Witness for C6: at t = 35 s the mode is `⌊3.5⌋ % 7 = 3`, and with two
concrete bodies at distance 5 the stored mode is that value. -/
theorem alien_mode_pure_time_witness :
    currentAlienMode 35 = 3 ∧
    (calculate_gravity (fun _ => 0) 35000 TIME_SCALE true 0
      { kind := Kind.planet, mass := 1, position := (0, 0), velocity := (0, 0),
        display_size := 5 }
      { kind := Kind.planet, mass := 1, position := (5, 0), velocity := (0, 0),
        display_size := 5 }).mode = 3 := by
  have h35 : currentAlienMode 35 = 3 := by
    rw [alien_mode_pure_time.1 35 (by norm_num)]
    rw [show (35 : ℝ) / 10 = 3.5 by norm_num]
    rw [show ⌊(3.5 : ℝ)⌋ = 3 by norm_num [Int.floor_eq_iff]]
    decide
  refine ⟨h35, ?_⟩
  rw [alien_mode_pure_time.2 (fun _ => 0) 35000 TIME_SCALE 0 _ _ ?_]
  · rw [show (35000 : ℝ) / 1000 = 35 by norm_num]
    exact h35
  · show ¬Real.sqrt ((5 - 0) ^ 2 + (0 - 0) ^ 2) < 1
    rw [show ((5 : ℝ) - 0) ^ 2 + (0 - 0) ^ 2 = 5 ^ 2 by norm_num,
      Real.sqrt_sq (by norm_num)]
    norm_num

/-- C7. For every sequence of `add_message` calls starting from the empty
log of a fresh `SolarSystem`, the log never holds more than 5 entries;
one `add_message` from any state of at most 5 entries stays at most 5;
and each call appends the new entry at the end, keeping the old entries
unchanged except that the oldest (index 0) is dropped when the log was
already at capacity. -/
theorem add_message_bounded_fifo :
    (∀ (ms : List ℕ), (ms.foldl add_message []).length ≤ 5) ∧
    (∀ (log : List ℕ) (m : ℕ), log.length ≤ 5 → (add_message log m).length ≤ 5) ∧
    (∀ (log : List ℕ) (m : ℕ),
      add_message log m = (if log.length < 5 then log else log.tail) ++ [m]) := by
  have hstep : ∀ (log : List ℕ) (m : ℕ),
      add_message log m = (if log.length < 5 then log else log.tail) ++ [m] := by
    intro log m
    unfold add_message max_log_messages
    rcases log with _ | ⟨a, rest⟩
    · simp
    · by_cases h : (a :: rest).length < 5
      · rw [if_neg (by simp at h ⊢; omega), if_pos h]
      · rw [if_pos (by simp at h ⊢; omega), if_neg h]
        simp
  have hone : ∀ (log : List ℕ) (m : ℕ), log.length ≤ 5 → (add_message log m).length ≤ 5 := by
    intro log m hlen
    rw [hstep]
    by_cases h : log.length < 5
    · rw [if_pos h]; simp; omega
    · rw [if_neg h]
      rcases log with _ | ⟨a, rest⟩
      · simp at h
      · simp at hlen ⊢; omega
  refine ⟨?_, hone, hstep⟩
  intro ms
  induction ms using List.reverseRecOn with
  | nil => simp
  | append_singleton xs x ih =>
    rw [List.foldl_append]
    exact hone _ _ ih

/-- Witness for C7: a concrete run of six calls stays within capacity, a
full log of five entries evicts exactly its oldest entry. -/
theorem add_message_bounded_fifo_witness :
    (([10, 20, 30, 40, 50, 60] : List ℕ).foldl add_message []).length ≤ 5 ∧
    add_message [1, 2, 3, 4, 5] 6 = [2, 3, 4, 5, 6] := by
  constructor
  · exact add_message_bounded_fifo.1 [10, 20, 30, 40, 50, 60]
  · rw [add_message_bounded_fifo.2.2 [1, 2, 3, 4, 5] 6]
    decide

/-- Counterexample to C8: `add_body` called without a name, on a system
whose collection holds a Sun, inserts the Planet but records nothing in
`initial_distances` (the recording is guarded by the name argument). -/
theorem add_body_unnamed_not_recorded :
    findSun (⟨[heavyB], [], [], []⟩ : SolarSystem).bodies = some heavyB ∧
    (add_body ⟨[heavyB], [], [], []⟩ heavyA none).initial_distances = [] ∧
    heavyA ∈ (add_body ⟨[heavyB], [], [], []⟩ heavyA none).bodies := by
  refine ⟨rfl, rfl, ?_⟩
  show heavyA ∈ [heavyB] ++ [heavyA]
  exact List.mem_append_right _ (List.mem_singleton_self _)

/-- C8 (amended). For every `add_body` call with a Planet or Asteroid and
a truthy (non-empty) name, when a Sun is present in the body collection,
the body's distance to that (first) Sun at insertion time is recorded in
`initial_distances`. -/
theorem add_body_records_distance (s : SolarSystem) (body : Body) (n : String) (sun : Body)
    (hn : ¬n = "") (hk : body.kind = Kind.planet ∨ body.kind = Kind.asteroid)
    (hs : findSun s.bodies = some sun) :
    (body, body.distance_to sun) ∈ (add_body s body (some n)).initial_distances := by
  have hs2 : findSun (s.bodies ++ [body]) = some sun := findSun_append _ _ _ hs
  unfold add_body
  dsimp only
  rw [if_neg hn, if_pos hk, hs2]
  exact List.mem_cons_self _ _

/-- Witness for the amended C8: a named planet added to a system holding
the Sun gets its distance recorded. -/
theorem add_body_records_distance_witness :
    (heavyA, heavyA.distance_to heavyB) ∈
      (add_body ⟨[heavyB], [], [], []⟩ heavyA (some ("Nova"))).initial_distances :=
  add_body_records_distance ⟨[heavyB], [], [], []⟩ heavyA "Nova" heavyB
    (by decide) (Or.inl rfl) rfl

/-- C9. For any time-scale value, a body with exactly zero velocity is
left at its exact initial position by any number of `Body.move`
integration steps. -/
theorem move_fixes_stationary (ts : ℝ) (b : Body) (hv : b.velocity = (0, 0)) :
    ∀ n : ℕ, (Body.move ts)^[n] b = b := by
  have hfix : Body.move ts b = b := by
    rcases b with ⟨k, m, ⟨px, py⟩, v, d⟩
    simp only [Body.move, Body.velocity] at hv ⊢
    rw [hv]
    simp
  intro n
  induction n with
  | zero => rfl
  | succ k ih => rw [Function.iterate_succ_apply, hfix, ih]

/-- Witness for C9: a concrete stationary planet at time scale 0.25 is
unmoved after three steps. -/
theorem move_fixes_stationary_witness :
    (Body.move TIME_SCALE)^[3]
      { kind := Kind.planet, mass := 1, position := (2, 3), velocity := (0, 0),
        display_size := 5 } =
      { kind := Kind.planet, mass := 1, position := (2, 3), velocity := (0, 0),
        display_size := 5 } :=
  move_fixes_stationary TIME_SCALE _ rfl 3

/-- C10. Every `calculate_gravity` call, in any mode, leaves both bodies'
positions, masses, kinds and display sizes unchanged (only velocities, the
current-mode field and the log flag can change), and the integration step
`Body.move` changes only the position, leaving velocity, mass, kind and
display size unchanged. -/
theorem calculate_gravity_frame (pyhash : ℝ → ℤ) (ticks ts : ℝ) (alien : Bool)
    (mode0 : ℤ) (first second : Body) :
    ((calculate_gravity pyhash ticks ts alien mode0 first second).first.position =
        first.position ∧
      (calculate_gravity pyhash ticks ts alien mode0 first second).first.mass = first.mass ∧
      (calculate_gravity pyhash ticks ts alien mode0 first second).first.kind = first.kind ∧
      (calculate_gravity pyhash ticks ts alien mode0 first second).first.display_size =
        first.display_size) ∧
    ((calculate_gravity pyhash ticks ts alien mode0 first second).second.position =
        second.position ∧
      (calculate_gravity pyhash ticks ts alien mode0 first second).second.mass = second.mass ∧
      (calculate_gravity pyhash ticks ts alien mode0 first second).second.kind = second.kind ∧
      (calculate_gravity pyhash ticks ts alien mode0 first second).second.display_size =
        second.display_size) ∧
    (∀ (u : ℝ) (b : Body),
      (Body.move u b).velocity = b.velocity ∧ (Body.move u b).mass = b.mass ∧
      (Body.move u b).kind = b.kind ∧ (Body.move u b).display_size = b.display_size) := by
  refine ⟨?_, ?_, ?_⟩
  · unfold calculate_gravity
    split_ifs <;> simp
  · unfold calculate_gravity
    split_ifs <;> simp
  · intro u b
    exact ⟨rfl, rfl, rfl, rfl⟩
